import Mathlib

/-!
Shallow embedding of the truckeelights client application, covering the
House Registry (`houseExists` / `addMarker`), the initial houses fetch,
the Map Presenter's marker re-render effect (`createEmojiMarker` and the
houses `useEffect`), the Image Normalizer (`resizeImage`), the concurrent
photo upload batch, and the Moderation Board (`fetchPhotos`,
`handleApprove`, auth gating).

External collaborators (Firestore, Firebase Storage, the auth provider,
the browser clock) are modelled by explicit oracle parameters (`DbEnv`,
`Backend`, success flags): each asynchronous backend call's outcome is an
input to the embedded function, and user-visible alerts are explicit
outputs.  JavaScript falsiness of strings and numbers is modelled where
the source relies on it (empty string is falsy; a numeric field is falsy
when it is absent or exactly 0).  Coordinates are embedded as exact
rationals; the image-quality loop is embedded in exact decimal arithmetic
with the quality expressed in tenths.
-/

/-- A geographic position as stored on a house document.  The source reads
`house.location.lat` / `house.location.lng` and tests them for JS
truthiness, so each coordinate is an `Option ℚ`: `none` models an absent
field and `some 0` models the (falsy) numeric value `0`. -/
structure Location where
  lat : Option ℚ
  lng : Option ℚ
deriving DecidableEq, Repr

/-- A house row as written by `addMarker` (file part_001): Firestore id,
the raw and normalized address, an optional location object, the
`hasLights` flag, the `createdAt` timestamp (an abstract clock reading)
and the initial `photos` array. -/
structure House where
  id : String
  address : String
  normalizedAddress : String
  location : Option Location
  hasLights : Bool
  createdAt : Nat
  photos : List String
deriving DecidableEq, Repr

/-- `String.prototype.trim`: strip leading and trailing whitespace,
embedded over the string's character list. -/
def jsTrim (cs : List Char) : List Char :=
  ((cs.dropWhile Char.isWhitespace).reverse.dropWhile Char.isWhitespace).reverse

/-- `address.trim().toLowerCase()` from `addMarker` (part_001 line 86),
embedded over the string's character list so that it evaluates inside
the kernel. -/
def normalizeAddress (s : String) : String :=
  String.mk ((jsTrim s.data).map Char.toLower)

/-- Oracle for one round trip of the House Registry against the backend:
whether the duplicate-existence query succeeds, whether `addDoc` succeeds,
the id Firestore assigns to a new document, the client clock (`new
Date()`), and the server clock (`serverTimestamp()`). -/
structure DbEnv where
  existsQueryOk : Bool
  addOk : Bool
  serverId : String
  clientNow : Nat
  serverNow : Nat
deriving DecidableEq, Repr

/-- `houseExists` (part_001 lines 50-67): returns `false` without querying
when the normalized address is falsy (the empty string); otherwise runs a
`where`-equality query and reports whether the result set is non-empty;
a query error is caught, logged, and reported as `false`. -/
def houseExists (env : DbEnv) (store : List House) (normalizedAddress : String) : Bool :=
  if normalizedAddress = "" then false
  else if env.existsQueryOk then store.any (fun h => h.normalizedAddress = normalizedAddress)
  else false

/-- The user-visible outcome of one `addMarker` call: the invalid-input
alert, the duplicate alert, a successful creation, or the generic
add-error alert from the `catch` block. -/
inductive AddOutcome where
  | invalidInput : AddOutcome
  | duplicate : AddOutcome
  | created : House → AddOutcome
  | addFailed : AddOutcome
deriving DecidableEq, Repr

/-- `addMarker` (part_001 lines 75-124): validates the inputs (an empty
address string is falsy, a missing location object is falsy), normalizes
the address, consults `houseExists`, and either alerts about a duplicate
or writes one new house row with the Firestore-assigned id, the client
clock as `createdAt`, `hasLights = true` and an empty `photos` array,
prepending it to the houses state.  A write error yields the generic
alert and leaves the store unchanged. -/
def addMarker (env : DbEnv) (store : List House) (address : String)
    (location : Option Location) : List House × AddOutcome :=
  match location with
  | none => (store, AddOutcome.invalidInput)
  | some loc =>
    if address = "" then (store, AddOutcome.invalidInput)
    else
      let normalized := normalizeAddress address
      if houseExists env store normalized then (store, AddOutcome.duplicate)
      else if env.addOk then
        let newHouse : House :=
          { id := env.serverId
            address := address
            normalizedAddress := normalized
            location := some loc
            hasLights := true
            createdAt := env.clientNow
            photos := [] }
        (newHouse :: store, AddOutcome.created newHouse)
      else (store, AddOutcome.addFailed)

/-- `fetchHouses` (part_001 lines 20-43): on success the fetched rows
replace the houses state; a fetch error is caught and logged only, the
state keeps its previous value and no user-visible alert is raised.  The
second component records whether an alert was shown. -/
def fetchHousesEffect (fetchOk : Bool) (rows prev : List House) : List House × Bool :=
  if fetchOk then (rows, false) else (prev, false)

/-- JS truthiness of a numeric document field: truthy iff present and
nonzero (part_004 line 33 tests `!house.location.lat` etc.). -/
def coordTruthy : Option ℚ → Bool
  | none => false
  | some x => decide (x ≠ 0)

/-- The guard at the top of the marker re-render effect (Map.js lines
393-397) and of `createEmojiMarker` (part_004 lines 33-36):
`!house.location || !house.location.lat || !house.location.lng`. -/
def hasValidLocation (h : House) : Bool :=
  match h.location with
  | none => false
  | some loc => coordTruthy loc.lat && coordTruthy loc.lng

/-- An on-map marker handle: the only state of a marker the claims
depend on is the position it was created at. -/
structure Marker where
  lat : ℚ
  lng : ℚ
deriving DecidableEq, Repr

/-- `createEmojiMarker` (part_004 lines 32-64): returns `null` when the
house's location object is absent or either coordinate is falsy,
otherwise constructs a marker at the house's position. -/
def createEmojiMarker (h : House) : Option Marker :=
  match h.location with
  | none => none
  | some loc =>
    match loc.lat, loc.lng with
    | some la, some ln =>
      if la = 0 ∨ ln = 0 then none else some { lat := la, lng := ln }
    | none, _ => none
    | some _, none => none

/-- The body of the marker re-render `useEffect` (Map.js lines 383-405)
after the previous markers have been cleared: walk the new houses list;
a house failing the location guard is logged as an anomaly and skipped;
otherwise `createEmojiMarker` runs and, when it returns a marker, the
marker is recorded under the house's id.  Returns the new id-to-marker
map together with the list of houses logged as anomalous. -/
def renderMarkersFromHouses : List House → List (String × Marker) × List House
  | [] => ([], [])
  | h :: rest =>
    let r := renderMarkersFromHouses rest
    if hasValidLocation h then
      match createEmojiMarker h with
      | some m => ((h.id, m) :: r.1, r.2)
      | none => r
    else (r.1, h :: r.2)

/-- The whole re-render effect: the previous id-to-marker map is
discarded wholesale (`markersRef`/`markersMapRef` are cleared at Map.js
lines 387-389) and the new map is rebuilt from the houses list alone. -/
def rerenderEffect (_prev : List (String × Marker)) (houses : List House) :
    List (String × Marker) × List House :=
  renderMarkersFromHouses houses

/-- The 5 MiB byte cap of `resizeImage` (imageUtils.js line 19). -/
def MAX_SIZE_BYTES : Nat := 5 * 1024 * 1024

/-- The retry loop of `resizeImage` (imageUtils.js lines 21-39), embedded
in exact decimal arithmetic with the quality expressed in tenths (7 is
quality 0.7, the loop guard `quality > 0.1` is `1 < q`).  `attempt q` is
the byte size produced by `readAndCompressImage` at quality `q/10`; the
compression library is modelled as total.  Returns the accepted byte
size, or `none` for the unresizable-image failure after the loop. -/
def resizeLoop (attempt : Nat → Nat) : Nat → Option Nat
  | 0 => none
  | 1 => none
  | q + 2 =>
    if attempt (q + 2) ≤ MAX_SIZE_BYTES then some (attempt (q + 2))
    else resizeLoop attempt (q + 1)

/-- `resizeImage` (imageUtils.js lines 16-46): the loop starts at quality
0.7 (7 tenths). -/
def resizeImage (attempt : Nat → Nat) : Option Nat :=
  resizeLoop attempt 7

/-- A photo document in a house's `photos` sub-collection, with the
document id and the owning house id attached the way the Admin page
attaches them when it flattens the sub-collections. -/
structure Photo where
  id : String
  houseId : String
  downloadURL : String
  storagePath : String
  uploadedAt : Nat
  fileName : String
  reviewed : Bool
deriving DecidableEq, Repr

/-- One file selected for upload, with its oracle outcomes: the
(normalized) file name, the Firestore id the photo document will get,
and whether the resize-upload-record pipeline for this file succeeds. -/
structure UploadFile where
  name : String
  assignedId : String
  ok : Bool
deriving DecidableEq, Repr

/-- The photo document one successful upload appends (Map.js lines
271-293): the storage path uses the corrected `photos` segment, the
download URL resolves that path, `uploadedAt` is `serverTimestamp()`,
and no `reviewed` field is written (absent reads as `false`). -/
def mkPhoto (houseId : String) (serverNow : Nat) (f : UploadFile) : Photo :=
  { id := f.assignedId
    houseId := houseId
    downloadURL := "https://storage/" ++ "houses/" ++ houseId ++ "/photos/" ++ f.name
    storagePath := "houses/" ++ houseId ++ "/photos/" ++ f.name
    uploadedAt := serverNow
    fileName := f.name
    reviewed := false }

/-- The alert shown when the upload batch settles (Map.js lines
296-300): one success alert when `Promise.all` resolves, one generic
error alert when it rejects. -/
inductive UploadAlert where
  | success : UploadAlert
  | uploadError : UploadAlert
deriving DecidableEq, Repr

/-- The upload handler of `showHouseInfoWindow` (Map.js lines 256-310):
every selected file runs its own fire-and-forget pipeline, so each
successful file's photo document is committed regardless of the other
files' outcomes; `Promise.all` then resolves (success alert) only when
every file succeeded and rejects (generic error alert) when at least one
failed.  Nothing is rolled back in the `catch` block. -/
def uploadBatch (houseId : String) (serverNow : Nat) (store : List Photo)
    (files : List UploadFile) : List Photo × UploadAlert :=
  (store ++ (files.filter (fun f => f.ok)).map (mkPhoto houseId serverNow),
   if files.all (fun f => f.ok) then UploadAlert.success else UploadAlert.uploadError)

/-- The alert shown by `handleApprove` (part_000 lines 73 and 76). -/
inductive ApproveAlert where
  | approved : ApproveAlert
  | approveFailed : ApproveAlert
deriving DecidableEq, Repr

/-- The per-photo update inside `setPhotos` in `handleApprove` (part_000
lines 66-72): the photo matching both the photo id and the house id gets
`reviewed := true`, every other photo is returned unchanged. -/
def approveOne (houseId photoId : String) (p : Photo) : Photo :=
  if p.id = photoId ∧ p.houseId = houseId then { p with reviewed := true } else p

/-- `handleApprove` (part_000 lines 62-78): when the backend `updateDoc`
succeeds, the in-memory photos state is mapped through `approveOne` and
the success alert is shown; when it fails, the error is caught, the
failure alert is shown, and the photos state is not touched. -/
def handleApprove (photos : List Photo) (houseId photoId : String)
    (updateOk : Bool) : List Photo × ApproveAlert :=
  if updateOk then
    (photos.map (approveOne houseId photoId), ApproveAlert.approved)
  else (photos, ApproveAlert.approveFailed)

/-- The pending partition rendered by the Admin page (part_000 line 80):
`photos.filter((photo) => !photo.reviewed)`. -/
def notReviewedPhotos (photos : List Photo) : List Photo :=
  photos.filter (fun p => !p.reviewed)

/-- The approved partition rendered by the Admin page (part_000 line 81):
`photos.filter((photo) => photo.reviewed)`. -/
def reviewedPhotos (photos : List Photo) : List Photo :=
  photos.filter (fun p => p.reviewed)

/-- The document store as seen by the Admin page's `fetchPhotos`:
the result of the houses-collection read and, per house id, the result
of that house's `photos` sub-collection read (`none` models a rejected
`getDocs` call). -/
structure Backend where
  housesResult : Option (List House)
  photosOf : String → Option (List Photo)

/-- The loop of `fetchPhotos` (part_000 lines 29-34): one sub-collection
read per house, each fetched photo tagged with its house id; a failing
read aborts the loop with the error.  The second component counts the
sub-collection reads performed, the failing one included. -/
def fetchPhotosLoop (b : Backend) : List House → List Photo → Nat →
    Option (List Photo) × Nat
  | [], acc, reads => (some acc, reads)
  | h :: rest, acc, reads =>
    match b.photosOf h.id with
    | none => (none, reads + 1)
    | some ps =>
      fetchPhotosLoop b rest (acc ++ ps.map (fun p => { p with houseId := h.id })) (reads + 1)

/-- `fetchPhotos` (part_000 lines 24-41): one read of the houses
collection, then one read of each house's `photos` sub-collection,
flattened into a single tagged list; any error is caught at the end and
surfaced as the fetch-failed alert (modelled by the `none` result).
Returns the result together with the number of houses-collection reads
and the number of photo sub-collection reads performed. -/
def fetchPhotos (b : Backend) : Option (List Photo) × Nat × Nat :=
  match b.housesResult with
  | none => (none, 1, 0)
  | some houses =>
    let r := fetchPhotosLoop b houses [] 0
    (r.1, 1, r.2)

/-- The Admin page's component state (part_000 lines 7-10): the observed
auth user, the flattened photos list, and the initial loading flag. -/
structure AdminState where
  user : Option String
  photos : List Photo
  loading : Bool
deriving DecidableEq, Repr

/-- The Admin page's state before the auth provider has reported
(part_000 lines 7-10): no user, empty photos, loading. -/
def initialAdminState : AdminState :=
  { user := none, photos := [], loading := true }

/-- What the Admin page renders (part_000 lines 83-172): the loading
screen, the login form, or the dashboard with its pending and approved
partitions. -/
inductive AdminRender where
  | loadingView : AdminRender
  | loginForm : AdminRender
  | dashboard : List Photo → List Photo → AdminRender
deriving DecidableEq, Repr

/-- The `onAuthStateChanged` callback (part_000 lines 12-22) together
with the `fetchPhotos` it triggers: the reported user is stored and
loading ends; only when a user is present does `fetchPhotos` run, its
result (on success) replacing the photos state and (on failure) leaving
the photos state unchanged behind the fetch-failed alert.  Returns the
new state, the houses-collection read count, the photo sub-collection
read count, and whether the fetch-failed alert was shown. -/
def authChanged (st : AdminState) (currentUser : Option String) (b : Backend) :
    AdminState × Nat × Nat × Bool :=
  match currentUser with
  | none => ({ st with user := none, loading := false }, 0, 0, false)
  | some u =>
    match fetchPhotos b with
    | (some ps, hr, pr) =>
      ({ user := some u, photos := ps, loading := false }, hr, pr, false)
    | (none, hr, pr) =>
      ({ st with user := some u, loading := false }, hr, pr, true)

/-- The Admin page's render function (part_000 lines 83-172): the loading
screen while `loading` holds, the login form when no user is present,
otherwise the dashboard built from the two filter partitions. -/
def renderAdmin (st : AdminState) : AdminRender :=
  if st.loading then AdminRender.loadingView
  else
    match st.user with
    | none => AdminRender.loginForm
    | some _ =>
      AdminRender.dashboard (notReviewedPhotos st.photos) (reviewedPhotos st.photos)

/-! ## Helper lemmas -/

theorem approveOne_eq_self (houseId photoId : String) (p : Photo)
    (h : p.id = photoId → p.houseId = houseId → p.reviewed = true) :
    approveOne houseId photoId p = p := by
  unfold approveOne
  split
  · next hm => cases p; simp_all
  · rfl

theorem map_approveOne_eq_self (houseId photoId : String) (photos : List Photo)
    (h : ∀ p ∈ photos, p.id = photoId → p.houseId = houseId → p.reviewed = true) :
    photos.map (approveOne houseId photoId) = photos := by
  induction photos with
  | nil => rfl
  | cons p ps ih =>
    simp only [List.map_cons,
      approveOne_eq_self houseId photoId p (h p (List.mem_cons_self p ps)),
      List.cons.injEq, true_and]
    exact ih fun q hq => h q (List.mem_cons_of_mem p hq)

theorem approveOne_reviewed_iff (houseId photoId : String) (p : Photo) :
    ((approveOne houseId photoId p).reviewed = true ↔
      (p.reviewed = true ∨ (p.id = photoId ∧ p.houseId = houseId))) := by
  unfold approveOne
  split
  · next hm => simp [hm]
  · next hm => simp [hm]

/-! ## Claims about the Moderation Board's approve action -/

/-- Claim C5: when the backend update in `handleApprove` fails, the
failure is surfaced as the approve-failed alert and the in-memory photos
state — and hence the pending/approved partition — is exactly what it
was before the call. -/
theorem handleApprove_error_preserves_state (photos : List Photo) (houseId photoId : String) :
    handleApprove photos houseId photoId false = (photos, ApproveAlert.approveFailed) ∧
    notReviewedPhotos (handleApprove photos houseId photoId false).1 = notReviewedPhotos photos ∧
    reviewedPhotos (handleApprove photos houseId photoId false).1 = reviewedPhotos photos := by
  refine ⟨rfl, ?_, ?_⟩ <;> rfl

/-- Claim C6: approving when every photo matching the target ids is
already reviewed leaves the photos state unchanged and still shows the
success alert (idempotent, no error); and the per-photo update only ever
turns `reviewed` from `false` to `true` — a photo ends up reviewed iff
it was already reviewed or is the approve target — never the reverse. -/
theorem handleApprove_idempotent_one_way (houseId photoId : String) (photos : List Photo) :
    ((∀ p ∈ photos, p.id = photoId → p.houseId = houseId → p.reviewed = true) →
      handleApprove photos houseId photoId true = (photos, ApproveAlert.approved)) ∧
    ∀ p : Photo, ((approveOne houseId photoId p).reviewed = true ↔
      (p.reviewed = true ∨ (p.id = photoId ∧ p.houseId = houseId))) := by
  constructor
  · intro h
    unfold handleApprove
    rw [if_pos rfl, map_approveOne_eq_self houseId photoId photos h]
  · exact approveOne_reviewed_iff houseId photoId

/-- A concrete already-approved photo used to instantiate claim C6. -/
def photoW : Photo :=
  { id := "p1"
    houseId := "h1"
    downloadURL := "https://storage/houses/h1/photos/a.jpg"
    storagePath := "houses/h1/photos/a.jpg"
    uploadedAt := 4
    fileName := "a.jpg"
    reviewed := true }

/-- Witness for claim C6 at the concrete already-approved photo. -/
theorem handleApprove_idempotent_one_way_witness :
    handleApprove [photoW] "h1" "p1" true = ([photoW], ApproveAlert.approved) ∧
    ((approveOne "h1" "p1" photoW).reviewed = true ↔
      (photoW.reviewed = true ∨ (photoW.id = "p1" ∧ photoW.houseId = "h1"))) :=
  ⟨(handleApprove_idempotent_one_way "h1" "p1" [photoW]).1 (by decide),
   (handleApprove_idempotent_one_way "h1" "p1" [photoW]).2 photoW⟩

/-! ## Claims about the marker re-render effect -/

theorem hasValidLocation_iff_isSome (h : House) :
    hasValidLocation h = true ↔ (createEmojiMarker h).isSome = true := by
  unfold hasValidLocation createEmojiMarker coordTruthy
  rcases h.location with _ | ⟨la, ln⟩
  · simp
  · rcases la with _ | la <;> rcases ln with _ | ln <;> simp

theorem renderMarkers_fst_mem (houses : List House) (id : String) :
    (∃ m, (id, m) ∈ (renderMarkersFromHouses houses).1) ↔
      ∃ h, h ∈ houses ∧ h.id = id ∧ hasValidLocation h = true := by
  induction houses with
  | nil => simp [renderMarkersFromHouses]
  | cons h rest ih =>
    by_cases hv : hasValidLocation h = true
    · have hsome : (createEmojiMarker h).isSome = true :=
        (hasValidLocation_iff_isSome h).mp hv
      rcases Option.isSome_iff_exists.mp hsome with ⟨m, hm⟩
      simp only [renderMarkersFromHouses, hv, if_true, hm]
      constructor
      · rintro ⟨m', hm'⟩
        rcases List.mem_cons.mp hm' with heq | hmem
        · exact ⟨h, List.mem_cons_self h rest, (Prod.mk.injEq _ _ _ _ ▸ heq).1.symm ▸ ⟨rfl, hv⟩⟩
        · rcases ih.mp ⟨m', hmem⟩ with ⟨h', h1, h2, h3⟩
          exact ⟨h', List.mem_cons_of_mem h h1, h2, h3⟩
      · rintro ⟨h', hmem, hid, hval⟩
        rcases List.mem_cons.mp hmem with rfl | hmem'
        · exact ⟨m, hid ▸ List.mem_cons_self _ _⟩
        · rcases ih.mpr ⟨h', hmem', hid, hval⟩ with ⟨m', hm'⟩
          exact ⟨m', List.mem_cons_of_mem _ hm'⟩
    · simp only [renderMarkersFromHouses, hv, if_false]
      rw [Bool.not_eq_true] at hv
      constructor
      · rintro ⟨m', hm'⟩
        rcases ih.mp ⟨m', hm'⟩ with ⟨h', h1, h2, h3⟩
        exact ⟨h', List.mem_cons_of_mem h h1, h2, h3⟩
      · rintro ⟨h', hmem, hid, hval⟩
        rcases List.mem_cons.mp hmem with rfl | hmem'
        · rw [hv] at hval; exact absurd hval (by simp)
        · exact ih.mpr ⟨h', hmem', hid, hval⟩

theorem renderMarkers_snd_mem (houses : List House) (x : House) :
    x ∈ (renderMarkersFromHouses houses).2 ↔
      x ∈ houses ∧ hasValidLocation x = false := by
  induction houses with
  | nil => simp [renderMarkersFromHouses]
  | cons h rest ih =>
    by_cases hv : hasValidLocation h = true
    · have hsome : (createEmojiMarker h).isSome = true :=
        (hasValidLocation_iff_isSome h).mp hv
      rcases Option.isSome_iff_exists.mp hsome with ⟨m, hm⟩
      simp only [renderMarkersFromHouses, hv, if_true, hm]
      rw [ih]
      constructor
      · rintro ⟨h1, h2⟩; exact ⟨List.mem_cons_of_mem h h1, h2⟩
      · rintro ⟨h1, h2⟩
        rcases List.mem_cons.mp h1 with rfl | hmem'
        · rw [hv] at h2; cases h2
        · exact ⟨hmem', h2⟩
    · rw [Bool.not_eq_true] at hv
      simp only [renderMarkersFromHouses, hv, Bool.false_eq_true, if_false, List.mem_cons]
      rw [ih]
      constructor
      · rintro (rfl | ⟨h1, h2⟩)
        · exact ⟨Or.inl rfl, hv⟩
        · exact ⟨Or.inr h1, h2⟩
      · rintro ⟨rfl | h1, h2⟩
        · exact Or.inl rfl
        · exact Or.inr ⟨h1, h2⟩

/-- Claim C2: after any change of the houses list, the key set of the
rebuilt marker map equals exactly the set of ids of houses in the new
list whose `location.lat` and `location.lng` pass the validity check —
independently of the previous marker map, so there are no stale markers
and no missing markers — and a house failing the check is exactly one
that lands in the logged-anomaly list instead of failing the re-render
(the effect is a total function). -/
theorem marker_rerender_invariant (prev : List (String × Marker)) (houses : List House) :
    (∀ id : String,
      (∃ m, (id, m) ∈ (rerenderEffect prev houses).1) ↔
        ∃ h, h ∈ houses ∧ h.id = id ∧ hasValidLocation h = true) ∧
    (∀ h : House, h ∈ (rerenderEffect prev houses).2 ↔
        (h ∈ houses ∧ hasValidLocation h = false)) :=
  ⟨fun id => renderMarkers_fst_mem houses id, fun h => renderMarkers_snd_mem houses h⟩

/-- A valid house used to instantiate the marker claims. -/
def houseV : House :=
  { id := "h1"
    address := "A"
    normalizedAddress := "a"
    location := some { lat := some (39 : ℚ), lng := some (-(120 : ℚ)) }
    hasLights := true
    createdAt := 0
    photos := [] }

/-- A house whose latitude is exactly 0, used to instantiate the marker
claims. -/
def houseZ : House :=
  { id := "h0"
    address := "B"
    normalizedAddress := "b"
    location := some { lat := some (0 : ℚ), lng := some (-(120 : ℚ)) }
    hasLights := true
    createdAt := 0
    photos := [] }

/-- Witness for claim C2: with a stale marker under key `gone` in the
previous map, the rebuilt map has a marker for the valid house, none for
the stale key, and logs the zero-latitude house. -/
theorem marker_rerender_invariant_witness :
    (∃ m, ("h1", m) ∈ (rerenderEffect [("gone", { lat := 1, lng := 1 })] [houseV, houseZ]).1) ∧
    ¬(∃ m, ("gone", m) ∈ (rerenderEffect [("gone", { lat := 1, lng := 1 })] [houseV, houseZ]).1) ∧
    houseZ ∈ (rerenderEffect [("gone", { lat := 1, lng := 1 })] [houseV, houseZ]).2 := by
  refine ⟨?_, ?_, ?_⟩
  · exact ((marker_rerender_invariant [("gone", { lat := 1, lng := 1 })] [houseV, houseZ]).1
      "h1").mpr ⟨houseV, by decide, rfl, by decide⟩
  · intro hex
    have := ((marker_rerender_invariant [("gone", { lat := 1, lng := 1 })] [houseV, houseZ]).1
      "gone").mp hex
    revert this
    decide
  · exact ((marker_rerender_invariant [("gone", { lat := 1, lng := 1 })] [houseV, houseZ]).2
      houseZ).mpr ⟨by decide, by decide⟩

/-- Claim C10: a house whose `location.lat` or `location.lng` equals
exactly 0 fails the falsiness-based validity check, gets no marker from
`createEmojiMarker`, and is logged as an anomaly by the re-render — it
is treated exactly like a house with missing location data even though 0
is a geometrically valid coordinate. -/
theorem zero_coordinate_excluded (houses : List House) (h : House) (loc : Location)
    (hmem : h ∈ houses) (hloc : h.location = some loc)
    (hzero : loc.lat = some 0 ∨ loc.lng = some 0) :
    hasValidLocation h = false ∧ createEmojiMarker h = none ∧
    h ∈ (renderMarkersFromHouses houses).2 := by
  rcases loc with ⟨la, ln⟩
  have hval : hasValidLocation h = false := by
    unfold hasValidLocation coordTruthy
    rw [hloc]
    rcases hzero with hz | hz <;> simp only at hz <;> rw [hz] <;> simp
  refine ⟨hval, ?_, (renderMarkers_snd_mem houses h).mpr ⟨hmem, hval⟩⟩
  cases hc : createEmojiMarker h with
  | none => rfl
  | some m =>
    have htrue : hasValidLocation h = true :=
      (hasValidLocation_iff_isSome h).mpr (by rw [hc]; rfl)
    rw [hval] at htrue
    cases htrue

/-- Witness for claim C10 at the concrete zero-latitude house. -/
theorem zero_coordinate_excluded_witness :
    hasValidLocation houseZ = false ∧ createEmojiMarker houseZ = none ∧
    houseZ ∈ (renderMarkersFromHouses [houseV, houseZ]).2 :=
  zero_coordinate_excluded [houseV, houseZ] houseZ
    { lat := some (0 : ℚ), lng := some (-(120 : ℚ)) } (by decide) rfl (Or.inl rfl)

/-! ## Claims about the Image Normalizer -/

theorem resizeLoop_eq_find (attempt : Nat → Nat) : ∀ q : Nat,
    resizeLoop attempt (q + 2) =
      (((List.range' 2 (q + 1)).reverse).find?
        (fun x => decide (attempt x ≤ MAX_SIZE_BYTES))).map attempt := by
  intro q
  induction q with
  | zero =>
    by_cases h : attempt 2 ≤ MAX_SIZE_BYTES <;>
      simp [resizeLoop, List.range', List.find?, h]
  | succ n ih =>
    have hrange : (List.range' 2 (n + 2)).reverse =
        (n + 3) :: (List.range' 2 (n + 1)).reverse := by
      rw [List.range'_concat]
      simp [List.reverse_append]
      omega
    rw [show resizeLoop attempt (n + 1 + 2) =
        if attempt (n + 3) ≤ MAX_SIZE_BYTES then some (attempt (n + 3))
        else resizeLoop attempt (n + 2) from rfl]
    rw [hrange, List.find?_cons]
    by_cases h : attempt (n + 3) ≤ MAX_SIZE_BYTES
    · simp [h]
    · rw [if_neg h, ih]
      simp [h]

/-- Claim C3: `resizeImage` returns the first attempt, trying the
qualities 0.7, 0.6, ..., 0.2 in that order (start at 0.7, decrement by
0.1 after each over-budget attempt), whose byte size is within the
5 MiB cap; every returned size is at most the cap; and it fails with the
unresizable-image error exactly when every quality strictly above 0.1 on
that schedule produces a size over the cap. -/
theorem resizeImage_size_bound_or_fail (attempt : Nat → Nat) :
    resizeImage attempt =
      (([7, 6, 5, 4, 3, 2] : List Nat).find?
        (fun q => decide (attempt q ≤ MAX_SIZE_BYTES))).map attempt ∧
    (∀ s, resizeImage attempt = some s → s ≤ MAX_SIZE_BYTES) ∧
    (resizeImage attempt = none ↔ ∀ q, 2 ≤ q → q ≤ 7 → MAX_SIZE_BYTES < attempt q) := by
  have key : resizeImage attempt =
      (([7, 6, 5, 4, 3, 2] : List Nat).find?
        (fun q => decide (attempt q ≤ MAX_SIZE_BYTES))).map attempt := by
    rw [show ([7, 6, 5, 4, 3, 2] : List Nat) = (List.range' 2 6).reverse from rfl]
    exact resizeLoop_eq_find attempt 5
  refine ⟨key, ?_, ?_⟩
  · intro s hs
    rw [key] at hs
    rcases Option.map_eq_some'.mp hs with ⟨q, hq, hatt⟩
    subst hatt
    have hp := List.find?_some (p := fun q => decide (attempt q ≤ MAX_SIZE_BYTES)) hq
    exact of_decide_eq_true hp
  · rw [key]
    constructor
    · intro hnone q h2 h7
      have hfind : ([7, 6, 5, 4, 3, 2] : List Nat).find?
          (fun q => decide (attempt q ≤ MAX_SIZE_BYTES)) = none := by
        cases hf : ([7, 6, 5, 4, 3, 2] : List Nat).find?
            (fun q => decide (attempt q ≤ MAX_SIZE_BYTES)) with
        | none => rfl
        | some a => rw [hf] at hnone; cases hnone
      have hq : q ∈ ([7, 6, 5, 4, 3, 2] : List Nat) := by interval_cases q <;> simp
      have := List.find?_eq_none.mp hfind q hq
      simp only [decide_eq_true_eq] at this
      omega
    · intro H
      have hfind : ([7, 6, 5, 4, 3, 2] : List Nat).find?
          (fun q => decide (attempt q ≤ MAX_SIZE_BYTES)) = none := by
        apply List.find?_eq_none.mpr
        intro x hx
        have hb : 2 ≤ x ∧ x ≤ 7 := by
          simp only [List.mem_cons, List.not_mem_nil, or_false] at hx
          rcases hx with rfl | rfl | rfl | rfl | rfl | rfl <;> omega
        simp only [decide_eq_true_eq]
        have := H x hb.1 hb.2
        omega
      rw [hfind]
      rfl

/-- A compression oracle that only fits the budget from quality 0.4
down, used to instantiate claim C3. -/
def attemptW : Nat → Nat := fun q => if 5 ≤ q then 6 * 1024 * 1024 else 100

/-- Witness for claim C3: the concrete oracle succeeds with a size under
the cap, and an oracle always over the cap makes `resizeImage` fail. -/
theorem resizeImage_size_bound_or_fail_witness :
    (100 ≤ MAX_SIZE_BYTES ∧ resizeImage attemptW = some 100) ∧
    resizeImage (fun _ => 6 * 1024 * 1024) = none :=
  ⟨⟨(resizeImage_size_bound_or_fail attemptW).2.1 100 (by rfl), by rfl⟩,
   (resizeImage_size_bound_or_fail (fun _ => 6 * 1024 * 1024)).2.2.mpr
     (fun _ _ _ => by norm_num [MAX_SIZE_BYTES])⟩

/-! ## Claims about the photo upload batch -/

/-- A file whose upload pipeline succeeds, used to instantiate claim C4. -/
def fileOkA : UploadFile := { name := "a.jpg", assignedId := "pa", ok := true }

/-- The same file with a failing pipeline, used to instantiate claim C4. -/
def fileBadA : UploadFile := { name := "a.jpg", assignedId := "pa", ok := false }

/-- A second file whose upload pipeline fails, used to instantiate claim C4. -/
def fileBadB : UploadFile := { name := "b.jpg", assignedId := "pb", ok := false }

/-- Counterexample to claim C4: uploading two files of which exactly one
fails keeps the completed upload (final list length 1, no rollback), but
the user-visible notification is the same generic error alert as in the
total-failure run (final list length 0) — partial success is not
surfaced distinctly from total failure. -/
theorem upload_partial_total_alert_not_distinct :
    (uploadBatch "h1" 10 [] [fileOkA, fileBadB]).1.length = 1 ∧
    (uploadBatch "h1" 10 [] [fileBadA, fileBadB]).1.length = 0 ∧
    (uploadBatch "h1" 10 [] [fileOkA, fileBadB]).2 = UploadAlert.uploadError ∧
    (uploadBatch "h1" 10 [] [fileBadA, fileBadB]).2 = UploadAlert.uploadError := by
  exact ⟨rfl, rfl, rfl, rfl⟩

/-- Claim C4 as amended: completed uploads are never rolled back — the
final photo list is the previous list plus exactly one photo document
per successful file, so it contains every successful upload — and the
batch notification is the success alert exactly when every file
succeeded, but any failure (partial or total alike) yields the one
generic error alert, so partial success is not distinguished from total
failure in the notification. -/
theorem upload_no_rollback_generic_alert (houseId : String) (now : Nat)
    (store : List Photo) (files : List UploadFile) :
    (uploadBatch houseId now store files).1 =
      store ++ (files.filter (fun f => f.ok)).map (mkPhoto houseId now) ∧
    (∀ f ∈ files, f.ok = true →
      mkPhoto houseId now f ∈ (uploadBatch houseId now store files).1) ∧
    ((uploadBatch houseId now store files).2 = UploadAlert.success ↔
      ∀ f ∈ files, f.ok = true) ∧
    ((uploadBatch houseId now store files).2 = UploadAlert.uploadError ↔
      ∃ f ∈ files, f.ok = false) := by
  refine ⟨rfl, ?_, ?_, ?_⟩
  · intro f hf hok
    exact List.mem_append_right _ (List.mem_map_of_mem _ (List.mem_filter.mpr ⟨hf, hok⟩))
  · show (if files.all (fun f => f.ok) then UploadAlert.success else UploadAlert.uploadError)
        = UploadAlert.success ↔ _
    by_cases hall : files.all (fun f => f.ok) = true
    · rw [if_pos hall]
      exact iff_of_true rfl (List.all_eq_true.mp hall)
    · rw [if_neg hall]
      exact iff_of_false (by simp) (fun hf => hall (List.all_eq_true.mpr hf))
  · show (if files.all (fun f => f.ok) then UploadAlert.success else UploadAlert.uploadError)
        = UploadAlert.uploadError ↔ _
    by_cases hall : files.all (fun f => f.ok) = true
    · rw [if_pos hall]
      refine iff_of_false (by simp) ?_
      rintro ⟨f, hf, hfo⟩
      have := List.all_eq_true.mp hall f hf
      rw [hfo] at this
      cases this
    · rw [if_neg hall]
      refine iff_of_true rfl ?_
      have := mt List.all_eq_true.mpr hall
      push_neg at this
      rcases this with ⟨f, hf, hpf⟩
      exact ⟨f, hf, by simpa using hpf⟩

/-- Witness for the amended claim C4 at the concrete partial-failure
batch: the successful file's photo document is in the final list and
the generic error alert is shown. -/
theorem upload_no_rollback_generic_alert_witness :
    mkPhoto "h1" 10 fileOkA ∈ (uploadBatch "h1" 10 [] [fileOkA, fileBadB]).1 ∧
    (uploadBatch "h1" 10 [] [fileOkA, fileBadB]).2 = UploadAlert.uploadError :=
  ⟨(upload_no_rollback_generic_alert "h1" 10 [] [fileOkA, fileBadB]).2.1 fileOkA
      (by decide) rfl,
   ((upload_no_rollback_generic_alert "h1" 10 [] [fileOkA, fileBadB]).2.2.2).mpr
      ⟨fileBadB, by decide, rfl⟩⟩

/-! ## Claims about the House Registry -/

/-- An environment where every backend call succeeds. -/
def envW : DbEnv :=
  { existsQueryOk := true, addOk := true, serverId := "id2", clientNow := 3, serverNow := 9 }

/-- The environment of the first call in the claim C1 counterexample. -/
def envW1 : DbEnv :=
  { existsQueryOk := true, addOk := true, serverId := "id1", clientNow := 1, serverNow := 9 }

/-- An environment whose duplicate-existence query fails. -/
def envBad : DbEnv :=
  { existsQueryOk := false, addOk := true, serverId := "id3", clientNow := 4, serverNow := 9 }

/-- A concrete location used in the House Registry claims. -/
def locW : Location := { lat := some (39 : ℚ), lng := some (-(120 : ℚ)) }

/-- The row persisted by `addMarker` for the whitespace-only address:
its normalized address is the empty string. -/
def blankHouse : House :=
  { id := "id1"
    address := "  "
    normalizedAddress := ""
    location := some locW
    hasLights := true
    createdAt := 1
    photos := [] }

/-- A persisted house with the normalized address of "123 Main St". -/
def dupHouse : House :=
  { id := "id0"
    address := "123 Main St"
    normalizedAddress := "123 main st"
    location := some locW
    hasLights := true
    createdAt := 0
    photos := [] }

/-- Counterexample to claim C1: the whitespace-only address "  "
normalizes to the empty string, which `houseExists` treats as falsy and
reports as non-existent without consulting the store.  The first call
persists `blankHouse`; a second call with an address whose trimmed
lower-cased form equals `blankHouse.normalizedAddress` then writes a
second row and reports a creation, not the duplicate. -/
theorem addMarker_blank_duplicate_not_rejected :
    addMarker envW1 [] "  " (some locW) = ([blankHouse], AddOutcome.created blankHouse) ∧
    blankHouse.normalizedAddress = normalizeAddress "  " ∧
    (addMarker envW [blankHouse] "  " (some locW)).1.length = 2 ∧
    (addMarker envW [blankHouse] "  " (some locW)).2 ≠ AddOutcome.duplicate := by
  refine ⟨?_, ?_, ?_, ?_⟩ <;> decide

/-- Claim C1 as amended: for every house persisted with a nonempty
normalized address `n`, while the duplicate-existence query succeeds, a
subsequent `addMarker` call with a present location and any address
whose trimmed lower-cased form equals `n` writes no new house record and
reports the duplicate to the user. -/
theorem addMarker_rejects_duplicate (env : DbEnv) (store : List House) (address : String)
    (loc : Location) (h : House)
    (hq : env.existsQueryOk = true) (hmem : h ∈ store)
    (hnorm : h.normalizedAddress = normalizeAddress address)
    (hne : normalizeAddress address ≠ "") :
    addMarker env store address (some loc) = (store, AddOutcome.duplicate) := by
  have haddr : address ≠ "" := by
    intro he
    exact hne (by rw [he]; rfl)
  have hex : houseExists env store (normalizeAddress address) = true := by
    unfold houseExists
    rw [if_neg hne, hq, if_pos rfl]
    exact List.any_eq_true.mpr ⟨h, hmem, by simp [hnorm]⟩
  simp only [addMarker]
  rw [if_neg haddr, hex, if_pos rfl]

/-- Witness for the amended claim C1: the second creation attempt for
"123 Main St" is rejected with the duplicate alert and writes nothing. -/
theorem addMarker_rejects_duplicate_witness :
    addMarker envW [dupHouse] "123 Main St" (some locW) =
      ([dupHouse], AddOutcome.duplicate) :=
  addMarker_rejects_duplicate envW [dupHouse] "123 Main St" locW dupHouse rfl
    (by decide) (by decide) (by decide)

/-- The house record created by `addMarker envW [] "123 Main St"`. -/
def houseCreatedW : House :=
  { id := "id2"
    address := "123 Main St"
    normalizedAddress := "123 main st"
    location := some locW
    hasLights := true
    createdAt := 3
    photos := [] }

/-- Counterexample to claim C7: with the client clock at 3 and the
server clock at 9, the persisted house's `createdAt` is 3 — `addMarker`
writes `new Date()` (a client clock reading), not a server-assigned
timestamp, unlike the photo upload path whose `uploadedAt` is
`serverTimestamp()` (compare `mkPhoto`). -/
theorem addMarker_createdAt_not_server_assigned :
    addMarker envW [] "123 Main St" (some locW) =
      ([houseCreatedW], AddOutcome.created houseCreatedW) ∧
    houseCreatedW.id = envW.serverId ∧
    houseCreatedW.createdAt = envW.clientNow ∧
    houseCreatedW.createdAt ≠ envW.serverNow ∧
    (mkPhoto "h1" envW.serverNow fileOkA).uploadedAt = envW.serverNow := by
  refine ⟨?_, ?_, ?_, ?_, ?_⟩ <;> decide

/-- Claim C7 as amended: every house persisted by a successful
`addMarker` call carries the server-assigned id, a client-assigned
`createdAt` (the client clock at creation), and the client-supplied
address, normalized address and location merged into the stored and
returned record (plus `hasLights = true` and an empty photos array). -/
theorem addMarker_creation_metadata (env : DbEnv) (store : List House)
    (address : String) (loc : Location)
    (haddr : address ≠ "")
    (hnodup : houseExists env store (normalizeAddress address) = false)
    (hok : env.addOk = true) :
    addMarker env store address (some loc) =
      ({ id := env.serverId
         address := address
         normalizedAddress := normalizeAddress address
         location := some loc
         hasLights := true
         createdAt := env.clientNow
         photos := [] } :: store,
       AddOutcome.created
         { id := env.serverId
           address := address
           normalizedAddress := normalizeAddress address
           location := some loc
           hasLights := true
           createdAt := env.clientNow
           photos := [] }) := by
  simp only [addMarker]
  rw [if_neg haddr, hnodup, if_neg (by simp), hok, if_pos rfl]

/-- Witness for the amended claim C7 at the concrete environment. -/
theorem addMarker_creation_metadata_witness :
    addMarker envW [] "123 Main St" (some locW) =
      ({ id := envW.serverId
         address := "123 Main St"
         normalizedAddress := normalizeAddress "123 Main St"
         location := some locW
         hasLights := true
         createdAt := envW.clientNow
         photos := [] } :: [],
       AddOutcome.created
         { id := envW.serverId
           address := "123 Main St"
           normalizedAddress := normalizeAddress "123 Main St"
           location := some locW
           hasLights := true
           createdAt := envW.clientNow
           photos := [] }) :=
  addMarker_creation_metadata envW [] "123 Main St" locW (by decide) (by decide) rfl

/-- Counterexample to claim C9: when the duplicate-existence query fails
(`existsQueryOk = false`) while a house with the same normalized address
is already persisted, `addMarker` reports a plain successful creation —
no duplicate alert and no error notification — and writes a duplicate
row: the query failure is swallowed and treated as "house does not
exist" instead of being surfaced to the user. -/
theorem exists_query_failure_silent_create :
    dupHouse.normalizedAddress = normalizeAddress "123 Main St" ∧
    (addMarker envBad [dupHouse] "123 Main St" (some locW)).1.length = 2 ∧
    (addMarker envBad [dupHouse] "123 Main St" (some locW)).2 =
      AddOutcome.created
        { id := "id3"
          address := "123 Main St"
          normalizedAddress := "123 main st"
          location := some locW
          hasLights := true
          createdAt := 4
          photos := [] } := by
  refine ⟨?_, ?_, ?_⟩ <;> decide

/-- Claim C9 as amended: a failure of the duplicate-existence query is
caught inside `houseExists`, logged to the console only, and reported as
"house does not exist", after which `addMarker` proceeds to create the
house with no user-visible notification of the failure; likewise the
initial houses fetch failure degrades silently to keeping the previous
list with no alert.  (Other action boundaries, such as `addDoc` failures
in `addMarker` or `updateDoc` failures in `handleApprove`, do surface
alerts.) -/
theorem exists_query_failure_swallowed (env : DbEnv) (store : List House)
    (address : String) (loc : Location) (rows prev : List House)
    (hq : env.existsQueryOk = false) (haddr : address ≠ "") (hok : env.addOk = true) :
    houseExists env store (normalizeAddress address) = false ∧
    addMarker env store address (some loc) =
      ({ id := env.serverId
         address := address
         normalizedAddress := normalizeAddress address
         location := some loc
         hasLights := true
         createdAt := env.clientNow
         photos := [] } :: store,
       AddOutcome.created
         { id := env.serverId
           address := address
           normalizedAddress := normalizeAddress address
           location := some loc
           hasLights := true
           createdAt := env.clientNow
           photos := [] }) ∧
    fetchHousesEffect false rows prev = (prev, false) := by
  have hex : houseExists env store (normalizeAddress address) = false := by
    unfold houseExists
    by_cases hne : normalizeAddress address = ""
    · rw [if_pos hne]
    · rw [if_neg hne, hq]
      simp
  refine ⟨hex, ?_, rfl⟩
  simp only [addMarker]
  rw [if_neg haddr, hex, if_neg (by simp), hok, if_pos rfl]

/-- Witness for the amended claim C9 at the concrete failing
environment. -/
theorem exists_query_failure_swallowed_witness :
    houseExists envBad [dupHouse] (normalizeAddress "123 Main St") = false ∧
    addMarker envBad [dupHouse] "123 Main St" (some locW) =
      ({ id := envBad.serverId
         address := "123 Main St"
         normalizedAddress := normalizeAddress "123 Main St"
         location := some locW
         hasLights := true
         createdAt := envBad.clientNow
         photos := [] } :: [dupHouse],
       AddOutcome.created
         { id := envBad.serverId
           address := "123 Main St"
           normalizedAddress := normalizeAddress "123 Main St"
           location := some locW
           hasLights := true
           createdAt := envBad.clientNow
           photos := [] }) ∧
    fetchHousesEffect false [dupHouse] [] = ([], false) :=
  exists_query_failure_swallowed envBad [dupHouse] "123 Main St" locW [dupHouse] []
    rfl (by decide) rfl

/-! ## Claims about the Moderation Board's access gating -/

theorem fetchPhotosLoop_ok (b : Backend) (hs : List House)
    (H : ∀ h ∈ hs, (b.photosOf h.id).isSome = true) :
    ∀ (acc : List Photo) (r : Nat),
      ∃ tail, fetchPhotosLoop b hs acc r = (some (acc ++ tail), r + hs.length) := by
  induction hs with
  | nil =>
    intro acc r
    exact ⟨[], by simp [fetchPhotosLoop]⟩
  | cons h rest ih =>
    intro acc r
    obtain ⟨ps, hps⟩ := Option.isSome_iff_exists.mp (H h (List.mem_cons_self h rest))
    obtain ⟨tail', htail⟩ := ih (fun x hx => H x (List.mem_cons_of_mem h hx))
      (acc ++ ps.map (fun p => { p with houseId := h.id })) (r + 1)
    refine ⟨ps.map (fun p => { p with houseId := h.id }) ++ tail', ?_⟩
    simp only [fetchPhotosLoop, hps]
    rw [htail]
    simp only [List.append_assoc, List.length_cons, Prod.mk.injEq, true_and]
    omega

/-- Claim C8: while the auth provider reports no authenticated user, the
Admin page renders the login form and performs zero document-store
reads; once it reports a user, exactly one read of the houses collection
plus one read of each house's photo sub-collection happens, and the
first render after that is the dashboard with the pending/approved
partition of the fetched photos. -/
theorem moderation_board_gating (st : AdminState) (b : Backend) (u : String)
    (hs : List House)
    (hh : b.housesResult = some hs)
    (hp : ∀ h ∈ hs, (b.photosOf h.id).isSome = true) :
    (authChanged st none b = ({ st with user := none, loading := false }, 0, 0, false) ∧
     renderAdmin (authChanged st none b).1 = AdminRender.loginForm) ∧
    (∃ ps : List Photo,
      fetchPhotos b = (some ps, 1, hs.length) ∧
      authChanged st (some u) b =
        ({ user := some u, photos := ps, loading := false }, 1, hs.length, false) ∧
      renderAdmin (authChanged st (some u) b).1 =
        AdminRender.dashboard (notReviewedPhotos ps) (reviewedPhotos ps)) := by
  refine ⟨⟨rfl, rfl⟩, ?_⟩
  obtain ⟨tail, htail⟩ := fetchPhotosLoop_ok b hs hp [] 0
  have hf : fetchPhotos b = (some tail, 1, hs.length) := by
    simp only [fetchPhotos, hh, htail]
    simp
  have ha : authChanged st (some u) b =
      ({ user := some u, photos := tail, loading := false }, 1, hs.length, false) := by
    unfold authChanged
    rw [hf]
  refine ⟨tail, hf, ha, ?_⟩
  rw [ha]
  rfl

/-- A concrete one-house backend used to instantiate claim C8. -/
def backendW : Backend :=
  { housesResult := some [houseV]
    photosOf := fun i => if i = "h1" then some [photoW] else none }

/-- Witness for claim C8 at the concrete backend: no reads and the login
form while signed out; one houses read and one photo sub-collection read
after sign-in. -/
theorem moderation_board_gating_witness :
    renderAdmin (authChanged initialAdminState none backendW).1 = AdminRender.loginForm ∧
    (authChanged initialAdminState none backendW).2.1 = 0 ∧
    (authChanged initialAdminState none backendW).2.2.1 = 0 ∧
    (authChanged initialAdminState (some "admin") backendW).2.1 = 1 ∧
    (authChanged initialAdminState (some "admin") backendW).2.2.1 = 1 := by
  obtain ⟨hnone, hsome⟩ :=
    moderation_board_gating initialAdminState backendW "admin" [houseV] rfl (by decide)
  obtain ⟨ps, hf, ha, hr⟩ := hsome
  refine ⟨hnone.2, ?_, ?_, ?_, ?_⟩
  · rw [hnone.1]
  · rw [hnone.1]
  · rw [ha]
  · rw [ha]
    rfl
